import Mathlib

/-!
# Verification of the poc_webapp CRUD backend (src/go/main.go)

A shallow embedding of the Go HTTP handlers in `main.go`.  The relational
store is modelled as an in-memory `Store` (lists of rows plus auto-increment
counters); every fallible external call (transaction begin, SQL exec/query,
file create/copy) consumes one entry of a fault schedule `Faults`, an
`Option DbErr` per call: `none` means the call succeeds, `some e` injects the
store/IO error `e`.  The empty schedule means every call succeeds.  Each
handler is a pure function from its request data, the fault schedule and the
current committed store to a `HandlerOut`: HTTP status, response body, the
committed store after the request, and the trace of external effects the
handler attempted, in order.  Transactions are modelled by building the
updated tables locally and installing them into the store only at the commit
step; every early (error) return leaves the committed store unchanged, which
is the deferred `tx.Rollback()` of the source.  (MySQL's behaviour of
retaining AUTO_INCREMENT advances across a rollback is not modelled; no
property here observes generated ids after a failed create.)

Simplifications, each noted at its definition: `time.Time` is carried as the
epoch integer the handler binds; `fmt.Sprintf` with an operand
("/images/%d.png") is modelled by direct interpolation, while the
zero-operand Sprintf the list handlers apply to the raw limit/offset clause
text is modelled by `sprintfNoArgs`, which reproduces fmt's processing of
format verbs with no operands (a percent sign in the client-supplied value
is mangled, e.g. "%d" becomes "%!d(MISSING)"); path-parameter ids arrive as
decimal strings in the source and are bound as SQL parameters which the
store coerces to the integer key columns — they are modelled as `Nat`
directly.
-/

/-- Error kinds a store call can report: a duplicate-entry (MySQL error 1062)
uniqueness violation, or any other error. -/
inductive DbErr where
  | duplicate
  | other
deriving DecidableEq, Repr

/-- Fault schedule: one entry per fallible external call, consumed in call
order.  An exhausted schedule injects no faults. -/
abbrev Faults := List (Option DbErr)

/-- Consume one entry of the fault schedule ([] = no fault). -/
def stepFault : Faults → Option DbErr × Faults
  | [] => (none, [])
  | f :: rest => (f, rest)

/-- Row of `events` (source struct `Event`, main.go:45).  `event_date` is the
epoch integer bound from the request (`time.Time` in the source). -/
structure Event where
  event_id : Nat
  account_id : Nat
  title : String
  description : String
  event_date : Int
deriving DecidableEq, Repr

/-- Row of `persons` (source struct `Person`, main.go:63). -/
structure Person where
  person_id : Nat
  first_name : String
  last_name : String
deriving DecidableEq, Repr

/-- Row of `images` (source struct `Image`, main.go:69). -/
structure Image where
  image_id : Nat
  image_name : String
  mime_type : String
deriving DecidableEq, Repr

/-- An image together with its derived display path (source struct
`ImageAndPath`, main.go:75). -/
structure ImageAndPath where
  imagePath : String
  image : Image
deriving DecidableEq, Repr

/-- The composed detail view (source struct `EventDatail` — the source's own
spelling — main.go:53). -/
structure EventDatail where
  event : Event
  persons : List Person
  imageAndPaths : List ImageAndPath
deriving DecidableEq, Repr

/-- Request body of POST /api/events (source struct `NewEvent`, main.go:58). -/
structure NewEvent where
  title : String
  description : String
  event_date : Int
deriving DecidableEq, Repr

/-- The committed relational store: one list of rows per table, plus the
auto-increment counter of each table with a generated key. -/
structure Store where
  events : List Event
  persons : List Person
  images : List Image
  eventPersonTagging : List (Nat × Nat)
  eventImageTagging : List (Nat × Nat)
  nextEventId : Nat
  nextPersonId : Nat
  nextImageId : Nat
deriving DecidableEq, Repr

/-- Which tagging table a bulk bind inserts into. -/
inductive TagTable where
  | eventPerson
  | eventImage
deriving DecidableEq, Repr

/-- External effects a handler attempts, in order. -/
inductive Effect where
  | queryRead (sql : String)
  | txBegin
  | insertEvent (title description : String) (eventDate : Int)
  | insertPerson (firstName lastName : String)
  | insertImage (imageName mimeType : String)
  | insertTag (table : TagTable) (eventId memberId : Nat)
  | deleteRow (table : String) (id : Nat)
  | lastIdQuery
  | txCommit
  | fileOpen
  | fileCreate (path : String)
  | fileCopy
deriving DecidableEq, Repr

/-- Response bodies, one constructor per body shape the handlers emit. -/
inductive Body where
  | empty
  | text (s : String)
  | jsonEventDetail (d : EventDatail)
  | jsonEventList (l : List Event)
  | jsonPersonList (l : List Person)
  | jsonImageAndPathList (l : List ImageAndPath)
  | jsonPerson (p : Person)
  | jsonImageAndPath (i : ImageAndPath)
  | jsonId (key : String) (id : Nat)
deriving DecidableEq, Repr

/-- A handler's observable outcome: HTTP status, body, committed store after
the request, and the trace of attempted external effects. -/
structure HandlerOut where
  status : Nat
  body : Body
  store : Store
  trace : List Effect
deriving DecidableEq, Repr

/-- main.go:21 — directory the uploaded image files are written to. -/
def imagesPath : String := "../public/images"

/-- main.go:30 — connection settings. -/
structure MySQLConnectionEnv where
  host : String
  port : String
  user : String
  dbname : String
  password : String
deriving DecidableEq, Repr

/-- main.go:81 — environment lookup with a default for unset/empty values.
`env` maps a variable name to its value, "" when unset (os.Getenv). -/
def getEnv (env : String → String) (key defaultValue : String) : String :=
  if env key != "" then env key else defaultValue

/-- main.go:89 — settings from the environment with local defaults. -/
def NewMySQLConnectionEnv (env : String → String) : MySQLConnectionEnv :=
  { host := getEnv env "MYSQL_HOST" "127.0.0.1"
    port := getEnv env "MYSQL_PORT" "3306"
    user := getEnv env "MYSQL_USER" "poc_webapp"
    dbname := getEnv env "MYSQL_DBNAME" "poc_webapp"
    password := getEnv env "MYSQL_PASS" "poc_webapp" }

/-- main.go:99 — the DSN handed to sqlx.Open.  Whether opening succeeds is
the driver's business; `mainFlow` below takes that outcome as an input. -/
def ConnectDB (mc : MySQLConnectionEnv) : String :=
  mc.user ++ ":" ++ mc.password ++ "@tcp(" ++ mc.host ++ ":" ++ mc.port ++ ")/"
    ++ mc.dbname ++ "?parseTime=true&loc=Asia%2FTokyo"

/-- Startup/shutdown events of `main` (main.go:105). -/
inductive MainEvent where
  | routesRegistered
  | dbConnect
  | serverStart
  | fatalExit
deriving DecidableEq, Repr

/-- Control flow of `main` (main.go:105-156): routes are registered, then the
store connection is opened.  On a connect error, `e.Logger.Fatalf` exits the
process before the server starts.  Otherwise `e.Start(":1323")` runs the
server; `e.Start` only returns when serving fails (it blocks while serving),
and its result is passed to `e.Logger.Fatal`, which also exits the process.
`connectErr` is whether opening the connection reports an error;
`serveReturns` is whether `e.Start` ever returns. -/
def mainFlow (connectErr : Bool) (serveReturns : Bool) : List MainEvent :=
  if connectErr then
    [MainEvent.routesRegistered, MainEvent.dbConnect, MainEvent.fatalExit]
  else if serveReturns then
    [MainEvent.routesRegistered, MainEvent.dbConnect, MainEvent.serverStart,
     MainEvent.fatalExit]
  else
    [MainEvent.routesRegistered, MainEvent.dbConnect, MainEvent.serverStart]

/-- main.go:262 — fmt.Sprintf("/images/%d.png", id). -/
def imagePathFor (id : Nat) : String := "/images/" ++ toString id ++ ".png"

/-- The fmt flag characters consumed after a percent sign. -/
def isGoFlag (c : Char) : Bool :=
  c == '#' || c == '0' || c == '+' || c == '-' || c == ' '

/-- Go fmt: consume the flag characters of a verb (with zero operands the
fast path for simple lower-case verbs never fires, so the scan always stops
at the first non-flag character). -/
def dropFlags : List Char → List Char
  | [] => []
  | c :: rest => if isGoFlag c then dropFlags rest else c :: rest

/-- Go fmt parsenum: consume a digit run, tracking whether at least one
digit was read; a value beyond 1e6 (fmt's tooLarge) aborts the scan,
consuming the whole remainder and reporting no number. -/
def parsenumGo : Nat → Bool → List Char → Bool × List Char
  | _, isnum, [] => (isnum, [])
  | num, isnum, c :: rest =>
    if c.isDigit then
      if num > 1000000 then (false, [])
      else parsenumGo (num * 10 + (c.toNat - 48)) true rest
    else (isnum, c :: rest)

/-- Position of the first closing bracket. -/
def idxRBracket : List Char → Option Nat
  | [] => none
  | c :: rest => if c == ']' then some 0 else (idxRBracket rest).map (· + 1)

/-- Go fmt parseArgNumber, reduced to the characters consumed for a
bracketed argument index (the list starts at the opening bracket).  With
zero operands every bracketed index marks the verb bad regardless of its
value, so only the consumed width matters: everything up to and including
the first closing bracket when the sequence is at least three characters
long, otherwise just the opening bracket. -/
def argIndexWid (l : List Char) : Nat :=
  if l.length < 3 then 1
  else
    match idxRBracket (l.drop 1) with
    | some j => j + 2
    | none => 1

/-- Go fmt doPrintf, one verb, specialized to zero operands.  The format
after the percent sign is scanned for flags, a bracketed argument index
(always bad with no operands), a width (a star consumes no operand and
emits "%!(BADWIDTH)"; digits are consumed, and a digit width after an index
marks the verb bad), a precision introduced by a dot with at least one
following character (after-index marks bad; a second bracketed index may
follow the dot; a star emits "%!(BADPREC)"), a trailing bracketed index
when no index was just read, and finally the verb: a percent emits a
literal percent, a bad-index verb emits "%!<verb>(BADINDEX)", any other
verb emits "%!<verb>(MISSING)" since no operand exists, and a format
exhausted before its verb emits "%!(NOVERB)".  Returns the emitted text and
the remaining format. -/
def processVerb (l : List Char) : List Char × List Char :=
  let l1 := dropFlags l
  let step1 : Bool × Bool × List Char :=
    match l1 with
    | '[' :: _ => (false, true, l1.drop (argIndexWid l1))
    | _ => (true, false, l1)
  let good1 := step1.1
  let afterIndex1 := step1.2.1
  let l2 := step1.2.2
  let step2 : List Char × Bool × Bool × List Char :=
    match l2 with
    | '*' :: rest => ("%!(BADWIDTH)".data, good1, false, rest)
    | _ =>
      let pn := parsenumGo 0 false l2
      ([], good1 && !(afterIndex1 && pn.1), afterIndex1, pn.2)
  let outW := step2.1
  let good2 := step2.2.1
  let afterIndex2 := step2.2.2.1
  let l3 := step2.2.2.2
  let step3 : List Char × Bool × Bool × List Char :=
    match l3 with
    | '.' :: c2 :: restc =>
      let goodA := good2 && !afterIndex2
      let tl := c2 :: restc
      let stepB : Bool × Bool × List Char :=
        if c2 == '[' then (false, true, tl.drop (argIndexWid tl))
        else (goodA, false, tl)
      let goodB := stepB.1
      let afterIndexB := stepB.2.1
      let lB := stepB.2.2
      match lB with
      | '*' :: rest => ("%!(BADPREC)".data, goodB, false, rest)
      | _ =>
        let pn := parsenumGo 0 false lB
        ([], goodB, afterIndexB, pn.2)
    | _ => ([], good2, afterIndex2, l3)
  let outP := step3.1
  let good3 := step3.2.1
  let afterIndex3 := step3.2.2.1
  let l4 := step3.2.2.2
  let step4 : Bool × List Char :=
    if afterIndex3 then (good3, l4)
    else
      match l4 with
      | '[' :: _ => (false, l4.drop (argIndexWid l4))
      | _ => (good3, l4)
  let good4 := step4.1
  let l5 := step4.2
  match l5 with
  | [] => (outW ++ outP ++ "%!(NOVERB)".data, [])
  | v :: rest =>
    if v == '%' then (outW ++ outP ++ ['%'], rest)
    else if good4 then (outW ++ outP ++ ('%' :: '!' :: v :: "(MISSING)".data), rest)
    else (outW ++ outP ++ ('%' :: '!' :: v :: "(BADINDEX)".data), rest)

/-- Go fmt doPrintf with zero operands over the format characters: literal
characters are copied, each percent sign starts a verb handled by
`processVerb`.  The fuel only bounds the loop: every iteration consumes at
least one character (the percent sign included), so the format's length is
always enough, and `sprintfNoArgs` supplies exactly that. -/
def doPrintfGo : Nat → List Char → List Char
  | 0, _ => []
  | _ + 1, [] => []
  | fuel + 1, c :: rest =>
    if c == '%' then
      (processVerb rest).1 ++ doPrintfGo fuel (processVerb rest).2
    else c :: doPrintfGo fuel rest

/-- fmt.Sprintf(format) with no operand arguments.  The list handlers call
Sprintf on " limit "+limit and " offset "+offset (main.go:191/195, 352/356,
468/472) with no operands, so a percent sign in the client-supplied value
is processed as a format verb and mangled. -/
def sprintfNoArgs (format : String) : String :=
  String.mk (doPrintfGo format.data.length format.data)

/-- GET /api/events (main.go:188).  The limit/offset query parameters pass
through the zero-operand fmt.Sprintf and are concatenated into the SQL text
exactly as the source does; applying the resulting raw clauses is the
external store's SQL parsing, so the embedding records the full query text
in the trace and returns the table rows. -/
def getEventList (limit offset : String) (faults : Faults) (s : Store) : HandlerOut :=
  let limitClause := if limit != "" then sprintfNoArgs (" limit " ++ limit) else ""
  let offsetClause := if offset != "" then sprintfNoArgs (" offset " ++ offset) else ""
  let sql := "select event_id, title, description, event_date from events"
    ++ limitClause ++ offsetClause
  let (f1, _) := stepFault faults
  let tr := [Effect.queryRead sql]
  match f1 with
  | some _ => ⟨500, Body.empty, s, tr⟩
  | none => ⟨200, Body.jsonEventList s.events, s, tr⟩

/-- GET /api/events/{event_id} (main.go:218): fetch the event (404 when no
row matches), then the persons and images reachable through the tagging
tables, composing the detail view. -/
def getEvent (eventID : Nat) (faults : Faults) (s : Store) : HandlerOut :=
  let (f1, faults) := stepFault faults
  let tr1 := [Effect.queryRead "SELECT * FROM events WHERE event_id = ?"]
  match f1 with
  | some _ => ⟨500, Body.empty, s, tr1⟩
  | none =>
    match s.events.find? (fun e => e.event_id == eventID) with
    | none => ⟨404, Body.text "not found: event", s, tr1⟩
    | some event =>
      let (f2, faults) := stepFault faults
      let tr2 := tr1 ++ [Effect.queryRead
        "select * from persons where person_id in (select distinct(person_id) from event_person_tagging where event_id =?);"]
      match f2 with
      | some _ => ⟨500, Body.empty, s, tr2⟩
      | none =>
        let personlist := s.persons.filter (fun p =>
          s.eventPersonTagging.any (fun t => t.1 == eventID && t.2 == p.person_id))
        let (f3, _) := stepFault faults
        let tr3 := tr2 ++ [Effect.queryRead
          "select * from images where image_id in (select distinct(image_id) from event_image_tagging where event_id =?);"]
        match f3 with
        | some _ => ⟨500, Body.empty, s, tr3⟩
        | none =>
          let imageAndPathlist := (s.images.filter (fun im =>
            s.eventImageTagging.any (fun t => t.1 == eventID && t.2 == im.image_id))).map
              (fun im => ImageAndPath.mk (imagePathFor im.image_id) im)
          ⟨200, Body.jsonEventDetail ⟨event, personlist, imageAndPathlist⟩, s, tr3⟩

/-- POST /api/events (main.go:278).  A body-decoding (`c.Bind`) failure is
only logged: the handler continues with the zero-valued `NewEvent`
(`bindResult = none` is the malformed-body case). -/
def postEvent (bindResult : Option NewEvent) (faults : Faults) (s : Store) : HandlerOut :=
  let event := bindResult.getD ⟨"", "", 0⟩
  let title := event.title
  let description := event.description
  let eventDate := event.event_date
  let (f1, faults) := stepFault faults
  let tr1 := [Effect.txBegin]
  match f1 with
  | some _ => ⟨500, Body.empty, s, tr1⟩
  | none =>
    let (f2, faults) := stepFault faults
    let tr2 := tr1 ++ [Effect.insertEvent title description eventDate]
    match f2 with
    | some DbErr.duplicate => ⟨409, Body.text "duplicated: event", s, tr2⟩
    | some DbErr.other => ⟨500, Body.empty, s, tr2⟩
    | none =>
      let newId := s.nextEventId
      let txEvents := s.events ++ [⟨newId, 1, title, description, eventDate⟩]
      let (f3, faults) := stepFault faults
      let tr3 := tr2 ++ [Effect.lastIdQuery]
      match f3 with
      | some _ => ⟨500, Body.empty, s, tr3⟩
      | none =>
        -- SELECT LAST_INSERT_ID() on the inserting transaction yields newId
        let (f4, _) := stepFault faults
        let tr4 := tr3 ++ [Effect.txCommit]
        match f4 with
        | some _ => ⟨500, Body.empty, s, tr4⟩
        | none =>
          ⟨201, Body.jsonId "EventID" newId,
            { s with events := txEvents, nextEventId := s.nextEventId + 1 }, tr4⟩

/-- DELETE /api/events/{event_id} (main.go:326): unconditional delete by id
inside a transaction; tagging rows are not touched. -/
def deleteEvent (eventID : Nat) (faults : Faults) (s : Store) : HandlerOut :=
  let (f1, faults) := stepFault faults
  let tr1 := [Effect.txBegin]
  match f1 with
  | some _ => ⟨500, Body.empty, s, tr1⟩
  | none =>
    let (f2, faults) := stepFault faults
    let tr2 := tr1 ++ [Effect.deleteRow "events" eventID]
    match f2 with
    | some _ => ⟨500, Body.empty, s, tr2⟩
    | none =>
      let txEvents := s.events.filter (fun e => !(e.event_id == eventID))
      let (f3, _) := stepFault faults
      let tr3 := tr2 ++ [Effect.txCommit]
      match f3 with
      | some _ => ⟨500, Body.empty, s, tr3⟩
      | none => ⟨204, Body.empty, { s with events := txEvents }, tr3⟩

/-- GET /api/persons (main.go:349); query text built as in the source, see
`getEventList` for the raw-clause convention. -/
def getPersonList (limit offset : String) (faults : Faults) (s : Store) : HandlerOut :=
  let limitClause := if limit != "" then sprintfNoArgs (" limit " ++ limit) else ""
  let offsetClause := if offset != "" then sprintfNoArgs (" offset " ++ offset) else ""
  let sql := "select * from persons" ++ limitClause ++ offsetClause
  let (f1, _) := stepFault faults
  let tr := [Effect.queryRead sql]
  match f1 with
  | some _ => ⟨500, Body.empty, s, tr⟩
  | none => ⟨200, Body.jsonPersonList s.persons, s, tr⟩

/-- GET /api/persons/{person_id} (main.go:377). -/
def getPerson (personID : Nat) (faults : Faults) (s : Store) : HandlerOut :=
  let (f1, _) := stepFault faults
  let tr := [Effect.queryRead "SELECT * FROM persons WHERE person_id = ?"]
  match f1 with
  | some _ => ⟨500, Body.empty, s, tr⟩
  | none =>
    match s.persons.find? (fun p => p.person_id == personID) with
    | none => ⟨404, Body.text "not found: person", s, tr⟩
    | some person => ⟨200, Body.jsonPerson person, s, tr⟩

/-- POST /api/persons (main.go:393).  As in `postEvent`, a `c.Bind` failure
is only logged and the zero-valued `Person` is used. -/
def postPerson (bindResult : Option Person) (faults : Faults) (s : Store) : HandlerOut :=
  let person := bindResult.getD ⟨0, "", ""⟩
  let firstname := person.first_name
  let lastname := person.last_name
  let (f1, faults) := stepFault faults
  let tr1 := [Effect.txBegin]
  match f1 with
  | some _ => ⟨500, Body.empty, s, tr1⟩
  | none =>
    let (f2, faults) := stepFault faults
    let tr2 := tr1 ++ [Effect.insertPerson firstname lastname]
    match f2 with
    | some DbErr.duplicate => ⟨409, Body.text "duplicated: person", s, tr2⟩
    | some DbErr.other => ⟨500, Body.empty, s, tr2⟩
    | none =>
      let newId := s.nextPersonId
      let txPersons := s.persons ++ [⟨newId, firstname, lastname⟩]
      let (f3, faults) := stepFault faults
      let tr3 := tr2 ++ [Effect.lastIdQuery]
      match f3 with
      | some _ => ⟨500, Body.empty, s, tr3⟩
      | none =>
        let (f4, _) := stepFault faults
        let tr4 := tr3 ++ [Effect.txCommit]
        match f4 with
        | some _ => ⟨500, Body.empty, s, tr4⟩
        | none =>
          ⟨201, Body.jsonId "PersonID" newId,
            { s with persons := txPersons, nextPersonId := s.nextPersonId + 1 }, tr4⟩

/-- DELETE /api/persons/{person_id} (main.go:442). -/
def deletePerson (personID : Nat) (faults : Faults) (s : Store) : HandlerOut :=
  let (f1, faults) := stepFault faults
  let tr1 := [Effect.txBegin]
  match f1 with
  | some _ => ⟨500, Body.empty, s, tr1⟩
  | none =>
    let (f2, faults) := stepFault faults
    let tr2 := tr1 ++ [Effect.deleteRow "persons" personID]
    match f2 with
    | some _ => ⟨500, Body.empty, s, tr2⟩
    | none =>
      let txPersons := s.persons.filter (fun p => !(p.person_id == personID))
      let (f3, _) := stepFault faults
      let tr3 := tr2 ++ [Effect.txCommit]
      match f3 with
      | some _ => ⟨500, Body.empty, s, tr3⟩
      | none => ⟨204, Body.empty, { s with persons := txPersons }, tr3⟩

/-- GET /api/images (main.go:465); each row is paired with its derived
display path, query text as in the source. -/
def getImageList (limit offset : String) (faults : Faults) (s : Store) : HandlerOut :=
  let limitClause := if limit != "" then sprintfNoArgs (" limit " ++ limit) else ""
  let offsetClause := if offset != "" then sprintfNoArgs (" offset " ++ offset) else ""
  let sql := "select * from images" ++ limitClause ++ offsetClause
  let (f1, _) := stepFault faults
  let tr := [Effect.queryRead sql]
  match f1 with
  | some _ => ⟨500, Body.empty, s, tr⟩
  | none =>
    ⟨200, Body.jsonImageAndPathList
      (s.images.map (fun im => ImageAndPath.mk (imagePathFor im.image_id) im)), s, tr⟩

/-- GET /api/images/{image_id} (main.go:496). -/
def getImage (imageID : Nat) (faults : Faults) (s : Store) : HandlerOut :=
  let (f1, _) := stepFault faults
  let tr := [Effect.queryRead "SELECT * FROM images WHERE image_id = ?"]
  match f1 with
  | some _ => ⟨500, Body.empty, s, tr⟩
  | none =>
    match s.images.find? (fun im => im.image_id == imageID) with
    | none => ⟨404, Body.text "not found: image", s, tr⟩
    | some image =>
      ⟨200, Body.jsonImageAndPath (ImageAndPath.mk (imagePathFor image.image_id) image), s, tr⟩

/-- The multipart form file of POST /api/images.  `openOk` is whether
`file.Open()` succeeds; the source discards that error (the `err` from
`file.Open()` is overwritten by the next assignment without being checked),
so the handler below never branches on it until `io.Copy` consumes the
source stream. -/
structure FormFile where
  filename : String
  contentType : String
  size : Nat
  openOk : Bool
deriving DecidableEq, Repr

/-- POST /api/images (main.go:515).  `form = none` is the missing-file case.
Order of the source: size check, file.Open (error discarded), begin, insert
row, LAST_INSERT_ID, os.Create of `<imagesPath>/<id>.png`, io.Copy, commit.
A failed io.Copy (injected fault, or the never-opened source stream) exits
with 500 before the commit, leaving the transaction rolled back while the
created file stays on disk. -/
def uploadImage (form : Option FormFile) (faults : Faults) (s : Store) : HandlerOut :=
  match form with
  | none => ⟨400, Body.text "file missing", s, []⟩
  | some file =>
    let image_name := file.filename
    let mime_type := file.contentType
    let size := file.size
    if size > 1000000 then
      ⟨400, Body.text "file exceed 1MByte", s, []⟩
    else
      let srcOk := file.openOk
      let tr1 := [Effect.fileOpen]
      let (f1, faults) := stepFault faults
      let tr2 := tr1 ++ [Effect.txBegin]
      match f1 with
      | some _ => ⟨500, Body.empty, s, tr2⟩
      | none =>
        let (f2, faults) := stepFault faults
        let tr3 := tr2 ++ [Effect.insertImage image_name mime_type]
        match f2 with
        | some DbErr.duplicate => ⟨409, Body.text "duplicated: image", s, tr3⟩
        | some DbErr.other => ⟨500, Body.empty, s, tr3⟩
        | none =>
          let image_id := s.nextImageId
          let txImages := s.images ++ [⟨image_id, image_name, mime_type⟩]
          let (f3, faults) := stepFault faults
          let tr4 := tr3 ++ [Effect.lastIdQuery]
          match f3 with
          | some _ => ⟨500, Body.empty, s, tr4⟩
          | none =>
            let dst_file_name := imagesPath ++ "/" ++ toString image_id ++ ".png"
            let (f4, faults) := stepFault faults
            let tr5 := tr4 ++ [Effect.fileCreate dst_file_name]
            match f4 with
            | some _ => ⟨500, Body.empty, s, tr5⟩
            | none =>
              let (f5, faults) := stepFault faults
              let tr6 := tr5 ++ [Effect.fileCopy]
              if f5.isSome || !srcOk then ⟨500, Body.empty, s, tr6⟩
              else
                let (f6, _) := stepFault faults
                let tr7 := tr6 ++ [Effect.txCommit]
                match f6 with
                | some _ => ⟨500, Body.empty, s, tr7⟩
                | none =>
                  ⟨201, Body.jsonId "ImageID" image_id,
                    { s with images := txImages, nextImageId := s.nextImageId + 1 }, tr7⟩

/-- DELETE /api/images/{image_id} (main.go:579): row deleted, file kept. -/
def deleteImage (imageID : Nat) (faults : Faults) (s : Store) : HandlerOut :=
  let (f1, faults) := stepFault faults
  let tr1 := [Effect.txBegin]
  match f1 with
  | some _ => ⟨500, Body.empty, s, tr1⟩
  | none =>
    let (f2, faults) := stepFault faults
    let tr2 := tr1 ++ [Effect.deleteRow "images" imageID]
    match f2 with
    | some _ => ⟨500, Body.empty, s, tr2⟩
    | none =>
      let txImages := s.images.filter (fun im => !(im.image_id == imageID))
      let (f3, _) := stepFault faults
      let tr3 := tr2 ++ [Effect.txCommit]
      match f3 with
      | some _ => ⟨500, Body.empty, s, tr3⟩
      | none => ⟨204, Body.empty, { s with images := txImages }, tr3⟩

/-- Result of the per-id insert loops of the two bind handlers. -/
inductive LoopResult where
  | ok (tagging : List (Nat × Nat)) (faults : Faults) (trace : List Effect)
  | fail (status : Nat) (body : Body) (trace : List Effect)
deriving DecidableEq, Repr

/-- The per-id insert loop shared by `bindEventPersons` (main.go:621-632) and
`bindEventImages` (main.go:661-673): the two source loops are identical up to
the target tagging table.  One INSERT per id, in input order; the store
reports duplicate-entry when the (event_id, id) pair already exists in the
transaction's view of the unique-keyed tagging table (or when the schedule
injects it); the loop exits on the first error without attempting the
remaining inserts. -/
def insertTagLoop (table : TagTable) (eventID : Nat) :
    List Nat → Faults → List (Nat × Nat) → LoopResult
  | [], faults, tagging => LoopResult.ok tagging faults []
  | i :: rest, faults, tagging =>
    let (f, faults) := stepFault faults
    let eff := Effect.insertTag table eventID i
    match f with
    | some DbErr.duplicate => LoopResult.fail 409 (Body.text "duplicated: bind") [eff]
    | some DbErr.other => LoopResult.fail 500 Body.empty [eff]
    | none =>
      if tagging.contains (eventID, i) then
        LoopResult.fail 409 (Body.text "duplicated: bind") [eff]
      else
        match insertTagLoop table eventID rest faults (tagging ++ [(eventID, i)]) with
        | LoopResult.ok t f2 tr => LoopResult.ok t f2 (eff :: tr)
        | LoopResult.fail st b tr => LoopResult.fail st b (eff :: tr)

/-- POST /api/events/{event_id}/persons (main.go:603).  A `c.Bind` failure is
only logged; the zero value of the slice is the empty list. -/
def bindEventPersons (eventID : Nat) (bindResult : Option (List Person))
    (faults : Faults) (s : Store) : HandlerOut :=
  let personList := bindResult.getD []
  let (f1, faults) := stepFault faults
  let tr1 := [Effect.txBegin]
  match f1 with
  | some _ => ⟨500, Body.empty, s, tr1⟩
  | none =>
    match insertTagLoop TagTable.eventPerson eventID (personList.map (fun p => p.person_id))
        faults s.eventPersonTagging with
    | LoopResult.fail st b ltr => ⟨st, b, s, tr1 ++ ltr⟩
    | LoopResult.ok tagging faults2 ltr =>
      let (f2, _) := stepFault faults2
      let tr2 := tr1 ++ ltr ++ [Effect.txCommit]
      match f2 with
      | some _ => ⟨500, Body.empty, s, tr2⟩
      | none => ⟨204, Body.empty, { s with eventPersonTagging := tagging }, tr2⟩

/-- POST /api/events/{event_id}/images (main.go:644), same shape as
`bindEventPersons` over the other tagging table. -/
def bindEventImages (eventID : Nat) (bindResult : Option (List Image))
    (faults : Faults) (s : Store) : HandlerOut :=
  let imageList := bindResult.getD []
  let (f1, faults) := stepFault faults
  let tr1 := [Effect.txBegin]
  match f1 with
  | some _ => ⟨500, Body.empty, s, tr1⟩
  | none =>
    match insertTagLoop TagTable.eventImage eventID (imageList.map (fun im => im.image_id))
        faults s.eventImageTagging with
    | LoopResult.fail st b ltr => ⟨st, b, s, tr1 ++ ltr⟩
    | LoopResult.ok tagging faults2 ltr =>
      let (f2, _) := stepFault faults2
      let tr2 := tr1 ++ ltr ++ [Effect.txCommit]
      match f2 with
      | some _ => ⟨500, Body.empty, s, tr2⟩
      | none => ⟨204, Body.empty, { s with eventImageTagging := tagging }, tr2⟩

/-- The SQL text of the first read query a handler attempted ("" when none):
the observable the list-endpoint properties are about. -/
def tracedSql (o : HandlerOut) : String :=
  match o.trace with
  | Effect.queryRead q :: _ => q
  | _ => ""

/-! ## Helper lemmas -/

theorem find?_filter_not {α : Type} (l : List α) (p : α → Bool) :
    (l.filter (fun a => !(p a))).find? p = none := by
  rw [List.find?_eq_none]
  intro x hx
  simpa using (List.mem_filter.mp hx).2

theorem find?_false {α : Type} (l : List α) : l.find? (fun _ => false) = none := by
  rw [List.find?_eq_none]
  intro x _
  simp

theorem filter_tagged_nil {α : Type} (rows : List α) (key : α → Nat)
    (tags : List (Nat × Nat)) (id : Nat) (h : ∀ t ∈ tags, t.1 ≠ id) :
    rows.filter (fun r => tags.any (fun t => t.1 == id && t.2 == key r)) = [] := by
  rw [List.filter_eq_nil_iff]
  intro a _
  simp only [List.any_eq_true, Bool.and_eq_true, beq_iff_eq]
  rintro ⟨t, ht, h1, _⟩
  exact h t ht h1

/-- The zero-operand fmt processing copies a format free of percent signs
verbatim (by induction on the fuel, which dominates the length). -/
theorem doPrintfGo_no_percent :
    ∀ (fuel : Nat) (l : List Char), l.length ≤ fuel → '%' ∉ l →
      doPrintfGo fuel l = l := by
  intro fuel
  induction fuel with
  | zero =>
    intro l hl _
    have : l = [] := List.length_eq_zero.mp (Nat.le_zero.mp hl)
    simp [this, doPrintfGo]
  | succ fuel ih =>
    intro l hl hp
    cases l with
    | nil => simp [doPrintfGo]
    | cons c rest =>
      have hc : (c == '%') = false := by
        simp only [beq_eq_false_iff_ne, ne_eq]
        intro he
        exact hp (he ▸ List.mem_cons_self c rest)
      have hlen : rest.length ≤ fuel := by
        simp only [List.length_cons] at hl
        omega
      have hrest : '%' ∉ rest := fun hm => hp (List.mem_cons_of_mem _ hm)
      simp [doPrintfGo, hc, ih rest hlen hrest]

/-- `sprintfNoArgs` is the identity on strings free of percent signs. -/
theorem sprintfNoArgs_no_percent (s : String) (h : '%' ∉ s.data) :
    sprintfNoArgs s = s := by
  unfold sprintfNoArgs
  rw [doPrintfGo_no_percent s.data.length s.data le_rfl h]

/-! ## Claims -/

/-- C2: an upload whose file size exceeds 1,000,000 bytes is rejected with
400 "file exceed 1MByte" before any store interaction: whatever the fault
schedule and store, the committed store is unchanged and the effect trace is
empty (no transaction begun, no row inserted, no file touched). -/
theorem claim_C2 (file : FormFile) (faults : Faults) (s : Store)
    (h : file.size > 1000000) :
    uploadImage (some file) faults s = ⟨400, Body.text "file exceed 1MByte", s, []⟩ := by
  unfold uploadImage
  simp [h]

theorem claim_C2_witness :
    (FormFile.mk "big.png" "image/png" 2000000 true).size > 1000000 ∧
    uploadImage (some (FormFile.mk "big.png" "image/png" 2000000 true)) []
        (Store.mk [] [] [] [] [] 1 1 1) =
      ⟨400, Body.text "file exceed 1MByte", Store.mk [] [] [] [] [] 1 1 1, []⟩ :=
  ⟨by decide, claim_C2 (FormFile.mk "big.png" "image/png" 2000000 true) []
    (Store.mk [] [] [] [] [] 1 1 1) (by decide)⟩

/-- C5: for every entity and id, delete(id) returns 204 for every store
(also when no row matches), removes exactly the rows with that id, leaves
both tagging tables untouched, and a get(id) on the resulting store yields
404 NotFound. -/
theorem claim_C5 (id : Nat) (s : Store) :
    deleteEvent id [] s =
      ⟨204, Body.empty, { s with events := s.events.filter (fun e => !(e.event_id == id)) },
        [Effect.txBegin, Effect.deleteRow "events" id, Effect.txCommit]⟩ ∧
    deletePerson id [] s =
      ⟨204, Body.empty, { s with persons := s.persons.filter (fun p => !(p.person_id == id)) },
        [Effect.txBegin, Effect.deleteRow "persons" id, Effect.txCommit]⟩ ∧
    deleteImage id [] s =
      ⟨204, Body.empty, { s with images := s.images.filter (fun im => !(im.image_id == id)) },
        [Effect.txBegin, Effect.deleteRow "images" id, Effect.txCommit]⟩ ∧
    (deleteEvent id [] s).store.eventPersonTagging = s.eventPersonTagging ∧
    (deleteEvent id [] s).store.eventImageTagging = s.eventImageTagging ∧
    (deletePerson id [] s).store.eventPersonTagging = s.eventPersonTagging ∧
    (deleteImage id [] s).store.eventImageTagging = s.eventImageTagging ∧
    (getEvent id [] (deleteEvent id [] s).store).status = 404 ∧
    (getPerson id [] (deletePerson id [] s).store).status = 404 ∧
    (getImage id [] (deleteImage id [] s).store).status = 404 := by
  refine ⟨rfl, rfl, rfl, rfl, rfl, rfl, rfl, ?_, ?_, ?_⟩
  · show (getEvent id []
      { s with events := s.events.filter (fun e => !(e.event_id == id)) }).status = 404
    unfold getEvent
    simp [stepFault, find?_filter_not, find?_false]
  · show (getPerson id []
      { s with persons := s.persons.filter (fun p => !(p.person_id == id)) }).status = 404
    unfold getPerson
    simp [stepFault, find?_filter_not, find?_false]
  · show (getImage id []
      { s with images := s.images.filter (fun im => !(im.image_id == id)) }).status = 404
    unfold getImage
    simp [stepFault, find?_filter_not, find?_false]

/-- C6: a malformed (undecodable) JSON body is only logged: each
body-binding handler behaves exactly as if it had received the zero-valued
decoded structure, and (with no store faults) returns its normal success
status — never a 400 or another client-visible error for the bad body. -/
theorem claim_C6 (eventID : Nat) (faults : Faults) (s : Store) :
    postEvent none faults s = postEvent (some (NewEvent.mk "" "" 0)) faults s ∧
    postPerson none faults s = postPerson (some (Person.mk 0 "" "")) faults s ∧
    bindEventPersons eventID none faults s = bindEventPersons eventID (some []) faults s ∧
    bindEventImages eventID none faults s = bindEventImages eventID (some []) faults s ∧
    (postEvent none [] s).status = 201 ∧
    (postPerson none [] s).status = 201 ∧
    (bindEventPersons eventID none [] s).status = 204 ∧
    (bindEventImages eventID none [] s).status = 204 :=
  ⟨rfl, rfl, rfl, rfl, rfl, rfl, rfl, rfl⟩

/-- C10 counterexample: the universal " offset <value>" appending of the
claim fails for a value containing a percent sign: the source passes the
clause through a zero-operand fmt.Sprintf, so offset "%d" reaches the query
text as " offset %!d(MISSING)", not " offset %d". -/
theorem claim_C10_counterexample :
    tracedSql (getPersonList "" "%d" [] (Store.mk [] [] [] [] [] 1 1 1))
      = "select * from persons" ++ " offset " ++ "%!d(MISSING)" ∧
    ¬ tracedSql (getPersonList "" "%d" [] (Store.mk [] [] [] [] [] 1 1 1))
      = "select * from persons" ++ " offset " ++ "%d" := by
  exact ⟨by decide, by decide⟩

/-- C10 (amended): in every list handler an offset query parameter that is
supplied and free of percent signs is appended to the query text as
" offset <value>" independently of the limit parameter: the sent query
equals the query of the same request without an offset followed by
" offset <value>", and an offset-only request yields the base query with an
offset clause and no limit clause.  (A value containing a percent sign is
first mangled by fmt's missing-operand rules, as the counterexample
shows.) -/
theorem claim_C10 (lim off : String) (faults : Faults) (s : Store) (h : off ≠ "")
    (hp : '%' ∉ off.data) :
    tracedSql (getEventList lim off faults s)
      = tracedSql (getEventList lim "" faults s) ++ " offset " ++ off ∧
    tracedSql (getEventList "" off faults s)
      = "select event_id, title, description, event_date from events" ++ " offset " ++ off ∧
    tracedSql (getPersonList lim off faults s)
      = tracedSql (getPersonList lim "" faults s) ++ " offset " ++ off ∧
    tracedSql (getPersonList "" off faults s)
      = "select * from persons" ++ " offset " ++ off ∧
    tracedSql (getImageList lim off faults s)
      = tracedSql (getImageList lim "" faults s) ++ " offset " ++ off ∧
    tracedSql (getImageList "" off faults s)
      = "select * from images" ++ " offset " ++ off := by
  have hb : (off != "") = true := by simpa using h
  have hid : sprintfNoArgs (" offset " ++ off) = " offset " ++ off := by
    apply sprintfNoArgs_no_percent
    have hdata : (" offset " ++ off).data = " offset ".data ++ off.data := rfl
    rw [hdata]
    intro hm
    rcases List.mem_append.mp hm with h1 | h2
    · exact absurd h1 (by decide)
    · exact hp h2
  refine ⟨?_, ?_, ?_, ?_, ?_, ?_⟩ <;>
    · simp only [getEventList, getPersonList, getImageList]
      rcases hf : stepFault faults with ⟨f1, rest⟩
      cases f1 <;> simp [tracedSql, hb, hid, String.append_empty, ← String.append_assoc]

/-- C7 counterexample: the claim says the startup store-connection failure is
the only fatal failure path, but in the run where the connection succeeds and
the serve call of the started HTTP server returns (serve failure), the
process also exits fatally (`e.Logger.Fatal(e.Start(":1323"))`). -/
theorem claim_C7_counterexample :
    MainEvent.serverStart ∈ mainFlow false true ∧
    MainEvent.fatalExit ∈ mainFlow false true := by decide

/-- C7 (amended): if the store connection cannot be opened at startup, the
process exits fatally during startup and the HTTP server is never started;
the only other fatal exit is when the started server's serve call returns
(serve failure), which is also fatal. -/
theorem claim_C7 (connectErr serveReturns : Bool) :
    (connectErr = true →
      mainFlow connectErr serveReturns =
        [MainEvent.routesRegistered, MainEvent.dbConnect, MainEvent.fatalExit] ∧
      MainEvent.serverStart ∉ mainFlow connectErr serveReturns) ∧
    (MainEvent.fatalExit ∈ mainFlow connectErr serveReturns →
      connectErr = true ∨
        (serveReturns = true ∧ MainEvent.serverStart ∈ mainFlow connectErr serveReturns)) := by
  cases connectErr <;> cases serveReturns <;> exact ⟨by decide, by decide⟩

theorem claim_C7_witness :
    (mainFlow true false =
        [MainEvent.routesRegistered, MainEvent.dbConnect, MainEvent.fatalExit] ∧
      MainEvent.serverStart ∉ mainFlow true false) ∧
    (false = true ∨
      (true = true ∧ MainEvent.serverStart ∈ mainFlow false true)) :=
  ⟨(claim_C7 true false).1 rfl, (claim_C7 false true).2 (by decide)⟩

/-- Projection of the image list out of a detail-view body ([] for every
other body shape). -/
def detailImages (o : HandlerOut) : List ImageAndPath :=
  match o.body with
  | Body.jsonEventDetail d => d.imageAndPaths
  | _ => []

/-- C8: the derived display path of every image is the string "/images/"
followed by the image id and ".png" — for the single-image get exactly, and
for every entry of the detail aggregator's image list — with the stored MIME
type never entering the path. -/
theorem claim_C8 (s : Store) (eventID imageID : Nat) (image : Image)
    (h : s.images.find? (fun im => im.image_id == imageID) = some image) :
    getImage imageID [] s =
      ⟨200, Body.jsonImageAndPath
        (ImageAndPath.mk ("/images/" ++ toString image.image_id ++ ".png") image), s,
        [Effect.queryRead "SELECT * FROM images WHERE image_id = ?"]⟩ ∧
    ∀ entry ∈ detailImages (getEvent eventID [] s),
      entry.imagePath = "/images/" ++ toString entry.image.image_id ++ ".png" := by
  constructor
  · unfold getImage
    simp [stepFault, h, imagePathFor]
  · unfold getEvent
    cases hq : s.events.find? (fun e => e.event_id == eventID) with
    | none => simp [stepFault, hq, detailImages]
    | some ev =>
      simp only [stepFault, hq, detailImages]
      intro entry hmem
      simp only [List.mem_map] at hmem
      obtain ⟨im, _, rfl⟩ := hmem
      simp [imagePathFor]

theorem claim_C8_witness :
    ((Store.mk [] [] [Image.mk 7 "cat.jpg" "image/jpeg"] [] [(3, 7)] 1 1 8).images.find?
        (fun im => im.image_id == 7) = some (Image.mk 7 "cat.jpg" "image/jpeg")) ∧
    (getImage 7 [] (Store.mk [] [] [Image.mk 7 "cat.jpg" "image/jpeg"] [] [(3, 7)] 1 1 8) =
      ⟨200, Body.jsonImageAndPath
        (ImageAndPath.mk ("/images/" ++ toString 7 ++ ".png") (Image.mk 7 "cat.jpg" "image/jpeg")),
        Store.mk [] [] [Image.mk 7 "cat.jpg" "image/jpeg"] [] [(3, 7)] 1 1 8,
        [Effect.queryRead "SELECT * FROM images WHERE image_id = ?"]⟩ ∧
      ∀ entry ∈ detailImages (getEvent 3 []
          (Store.mk [] [] [Image.mk 7 "cat.jpg" "image/jpeg"] [] [(3, 7)] 1 1 8)),
        entry.imagePath = "/images/" ++ toString entry.image.image_id ++ ".png") :=
  ⟨by decide, claim_C8 (Store.mk [] [] [Image.mk 7 "cat.jpg" "image/jpeg"] [] [(3, 7)] 1 1 8)
    3 7 (Image.mk 7 "cat.jpg" "image/jpeg") (by decide)⟩

/-- C3: getEventDetail of an event id whose row exists but which no tagging
row references returns 200 with the event composed with empty person and
image lists; an id with no matching event row yields 404 NotFound. -/
theorem claim_C3 (s : Store) (id : Nat) :
    (∀ e, s.events.find? (fun ev => ev.event_id == id) = some e →
      (∀ t ∈ s.eventPersonTagging, t.1 ≠ id) →
      (∀ t ∈ s.eventImageTagging, t.1 ≠ id) →
      getEvent id [] s =
        ⟨200, Body.jsonEventDetail (EventDatail.mk e [] []), s,
          [Effect.queryRead "SELECT * FROM events WHERE event_id = ?",
           Effect.queryRead "select * from persons where person_id in (select distinct(person_id) from event_person_tagging where event_id =?);",
           Effect.queryRead "select * from images where image_id in (select distinct(image_id) from event_image_tagging where event_id =?);"]⟩) ∧
    (s.events.find? (fun ev => ev.event_id == id) = none →
      getEvent id [] s =
        ⟨404, Body.text "not found: event", s,
          [Effect.queryRead "SELECT * FROM events WHERE event_id = ?"]⟩) := by
  constructor
  · intro e hfind hp hi
    unfold getEvent
    simp only [stepFault, hfind]
    rw [filter_tagged_nil s.persons (fun p => p.person_id) s.eventPersonTagging id hp,
      filter_tagged_nil s.images (fun im => im.image_id) s.eventImageTagging id hi]
    simp
  · intro hfind
    unfold getEvent
    simp [stepFault, hfind]

theorem claim_C3_witness :
    ((Store.mk [Event.mk 4 1 "t" "d" 0] [Person.mk 9 "a" "b"] [] [(5, 9)] [] 5 10 1).events.find?
        (fun ev => ev.event_id == 4) = some (Event.mk 4 1 "t" "d" 0)) ∧
    (∀ t ∈ (Store.mk [Event.mk 4 1 "t" "d" 0] [Person.mk 9 "a" "b"] [] [(5, 9)] [] 5 10 1).eventPersonTagging,
      t.1 ≠ 4) ∧
    (getEvent 4 [] (Store.mk [Event.mk 4 1 "t" "d" 0] [Person.mk 9 "a" "b"] [] [(5, 9)] [] 5 10 1)).status = 200 ∧
    (getEvent 4 [] (Store.mk [Event.mk 4 1 "t" "d" 0] [Person.mk 9 "a" "b"] [] [(5, 9)] [] 5 10 1)).body
      = Body.jsonEventDetail (EventDatail.mk (Event.mk 4 1 "t" "d" 0) [] []) ∧
    (getEvent 2 [] (Store.mk [Event.mk 4 1 "t" "d" 0] [Person.mk 9 "a" "b"] [] [(5, 9)] [] 5 10 1)).status = 404 := by
  have h := claim_C3 (Store.mk [Event.mk 4 1 "t" "d" 0] [Person.mk 9 "a" "b"] [] [(5, 9)] [] 5 10 1) 4
  have h2 := claim_C3 (Store.mk [Event.mk 4 1 "t" "d" 0] [Person.mk 9 "a" "b"] [] [(5, 9)] [] 5 10 1) 2
  have hok := h.1 (Event.mk 4 1 "t" "d" 0) (by decide) (by decide) (by decide)
  have h404 := h2.2 (by decide)
  exact ⟨by decide, by decide, by rw [hok], by rw [hok], by rw [h404]⟩

/-- C9: the error of `file.Open()` is discarded unchecked: for an upload at
or under the size limit (no store faults injected), the handler attempts the
same effects — transaction begin, row insert, id read-back, file create —
whether or not the open succeeded, diverging only at `io.Copy`: the
never-opened stream makes the copy fail (500, transaction rolled back) while
the opened one continues to the commit (201). -/
theorem claim_C9 (s : Store) (name mime : String) (size : Nat) (h : size ≤ 1000000) :
    (uploadImage (some (FormFile.mk name mime size false)) [] s).trace
      = [Effect.fileOpen, Effect.txBegin, Effect.insertImage name mime, Effect.lastIdQuery,
         Effect.fileCreate (imagesPath ++ "/" ++ toString s.nextImageId ++ ".png"),
         Effect.fileCopy] ∧
    (uploadImage (some (FormFile.mk name mime size false)) [] s).status = 500 ∧
    (uploadImage (some (FormFile.mk name mime size false)) [] s).store = s ∧
    (uploadImage (some (FormFile.mk name mime size true)) [] s).trace
      = [Effect.fileOpen, Effect.txBegin, Effect.insertImage name mime, Effect.lastIdQuery,
         Effect.fileCreate (imagesPath ++ "/" ++ toString s.nextImageId ++ ".png"),
         Effect.fileCopy, Effect.txCommit] ∧
    (uploadImage (some (FormFile.mk name mime size true)) [] s).status = 201 := by
  have hn : ¬ size > 1000000 := by omega
  unfold uploadImage
  simp [hn, stepFault]

theorem claim_C9_witness :
    ((FormFile.mk "a.png" "image/png" 5 false).size ≤ 1000000) ∧
    (uploadImage (some (FormFile.mk "a.png" "image/png" 5 false)) []
        (Store.mk [] [] [] [] [] 1 1 1)).status = 500 ∧
    (uploadImage (some (FormFile.mk "a.png" "image/png" 5 true)) []
        (Store.mk [] [] [] [] [] 1 1 1)).status = 201 :=
  ⟨by decide,
    (claim_C9 (Store.mk [] [] [] [] [] 1 1 1) "a.png" "image/png" 5 (by decide)).2.1,
    (claim_C9 (Store.mk [] [] [] [] [] 1 1 1) "a.png" "image/png" 5 (by decide)).2.2.2.2⟩

theorem claim_C10_witness :
    ("3" : String) ≠ "" ∧ '%' ∉ ("3" : String).data ∧
    tracedSql (getPersonList "" "3" [] (Store.mk [] [] [] [] [] 1 1 1))
      = "select * from persons" ++ " offset " ++ "3" :=
  ⟨by decide, by decide,
    (claim_C10 "" "3" [] (Store.mk [] [] [] [] [] 1 1 1) (by decide) (by decide)).2.2.2.1⟩

/-! ## The bulk-bind insert loop -/

/-- A fault-free run of the insert loop over pairwise-distinct ids that are
all fresh for the transaction's tagging table inserts exactly one row per
id, in input order. -/
theorem insertTagLoop_ok (table : TagTable) (eventID : Nat) :
    ∀ (ids : List Nat) (tagging : List (Nat × Nat)),
      ids.Nodup → (∀ i ∈ ids, (eventID, i) ∉ tagging) →
      insertTagLoop table eventID ids [] tagging =
        LoopResult.ok (tagging ++ ids.map (fun i => (eventID, i))) []
          (ids.map (fun i => Effect.insertTag table eventID i)) := by
  intro ids
  induction ids with
  | nil => intro tagging _ _; simp [insertTagLoop]
  | cons i rest ih =>
    intro tagging hnd hfresh
    have hmem : (eventID, i) ∉ tagging := hfresh i (List.mem_cons_self i rest)
    have hc : tagging.contains (eventID, i) = false := by
      simp [List.contains]; exact hmem
    have hrest : ∀ j ∈ rest, (eventID, j) ∉ tagging ++ [(eventID, i)] := by
      intro j hj
      simp only [List.mem_append, List.mem_singleton]
      rintro (hin | heq)
      · exact hfresh j (List.mem_cons_of_mem i hj) hin
      · have hji : j = i := by simpa using heq
        exact (List.nodup_cons.mp hnd).1 (hji ▸ hj)
    unfold insertTagLoop
    simp only [stepFault, hc, Bool.false_eq_true, if_false]
    rw [ih (tagging ++ [(eventID, i)]) (List.Nodup.of_cons hnd) hrest]
    simp [List.append_assoc]

/-- A fault-free run of the insert loop whose input is a block of distinct
fresh ids followed by an id that duplicates either an existing pair or one
of the fresh block exits at that insert with 409, one insert effect per
attempted id and none for the remainder. -/
theorem insertTagLoop_dup (table : TagTable) (eventID : Nat) :
    ∀ (pre : List Nat) (d : Nat) (post : List Nat) (tagging : List (Nat × Nat)),
      pre.Nodup → (∀ i ∈ pre, (eventID, i) ∉ tagging) →
      ((eventID, d) ∈ tagging ∨ d ∈ pre) →
      insertTagLoop table eventID (pre ++ d :: post) [] tagging =
        LoopResult.fail 409 (Body.text "duplicated: bind")
          (pre.map (fun i => Effect.insertTag table eventID i)
            ++ [Effect.insertTag table eventID d]) := by
  intro pre
  induction pre with
  | nil =>
    intro d post tagging _ _ hdup
    have hd : (eventID, d) ∈ tagging := by
      rcases hdup with hin | hin
      · exact hin
      · simp at hin
    have hc : tagging.contains (eventID, d) = true := by
      simp [List.contains]; exact hd
    rw [List.nil_append]
    unfold insertTagLoop
    simp only [stepFault]
    rw [hc]
    simp
  | cons i pre ih =>
    intro d post tagging hnd hfresh hdup
    have hmem : (eventID, i) ∉ tagging := hfresh i (List.mem_cons_self i pre)
    have hc : tagging.contains (eventID, i) = false := by
      simp [List.contains]; exact hmem
    have hpre : ∀ j ∈ pre, (eventID, j) ∉ tagging ++ [(eventID, i)] := by
      intro j hj
      simp only [List.mem_append, List.mem_singleton]
      rintro (hin | heq)
      · exact hfresh j (List.mem_cons_of_mem i hj) hin
      · have hji : j = i := by simpa using heq
        exact (List.nodup_cons.mp hnd).1 (hji ▸ hj)
    have hdup2 : (eventID, d) ∈ tagging ++ [(eventID, i)] ∨ d ∈ pre := by
      rcases hdup with hin | hin
      · exact Or.inl (List.mem_append_left _ hin)
      · rcases List.mem_cons.mp hin with hdi | hin2
        · exact Or.inl (by simp [hdi])
        · exact Or.inr hin2
    unfold insertTagLoop
    simp only [stepFault, hc, Bool.false_eq_true, if_false, List.cons_append]
    rw [ih d post (tagging ++ [(eventID, i)]) (List.Nodup.of_cons hnd) hpre hdup2]
    simp

/-! ## Rollback lemmas: any non-success exit leaves the committed store
unchanged (the deferred tx.Rollback of the source). -/

theorem bindEventPersons_rollback (eventID : Nat) (b : Option (List Person))
    (faults : Faults) (s : Store) :
    (bindEventPersons eventID b faults s).status = 204 ∨
    (bindEventPersons eventID b faults s).store = s := by
  simp only [bindEventPersons]
  repeat' split
  all_goals first | (left; rfl) | (right; rfl)

theorem bindEventImages_rollback (eventID : Nat) (b : Option (List Image))
    (faults : Faults) (s : Store) :
    (bindEventImages eventID b faults s).status = 204 ∨
    (bindEventImages eventID b faults s).store = s := by
  simp only [bindEventImages]
  repeat' split
  all_goals first | (left; rfl) | (right; rfl)

theorem postEvent_rollback (b : Option NewEvent) (faults : Faults) (s : Store) :
    (postEvent b faults s).status = 201 ∨ (postEvent b faults s).store = s := by
  simp only [postEvent]
  repeat' split
  all_goals first | (left; rfl) | (right; rfl)

theorem postPerson_rollback (b : Option Person) (faults : Faults) (s : Store) :
    (postPerson b faults s).status = 201 ∨ (postPerson b faults s).store = s := by
  simp only [postPerson]
  repeat' split
  all_goals first | (left; rfl) | (right; rfl)

theorem uploadImage_rollback (form : Option FormFile) (faults : Faults) (s : Store) :
    (uploadImage form faults s).status = 201 ∨ (uploadImage form faults s).store = s := by
  cases form with
  | none => right; rfl
  | some file =>
    simp only [uploadImage]
    repeat' split
    all_goals first | (left; rfl) | (right; rfl)

/-- C1: each bulk bind runs in one transaction inserting one association row
per id in input order (one begin, one insert effect per id, one commit, the
tagging table extended by exactly the input pairs); any non-204 outcome
leaves the committed store unchanged, so a partial batch never persists; and
a duplicate entry at any position returns 409 with no insert attempted after
it. -/
theorem claim_C1 (eventID : Nat) (personList : List Person) (imageList : List Image) (s : Store) :
    (personList ≠ [] →
      (personList.map (fun p => p.person_id)).Nodup →
      (∀ i ∈ personList.map (fun p => p.person_id), (eventID, i) ∉ s.eventPersonTagging) →
      bindEventPersons eventID (some personList) [] s =
        ⟨204, Body.empty,
          { s with eventPersonTagging := s.eventPersonTagging
              ++ (personList.map (fun p => p.person_id)).map (fun i => (eventID, i)) },
          Effect.txBegin :: ((personList.map (fun p => p.person_id)).map
              (fun i => Effect.insertTag TagTable.eventPerson eventID i)
            ++ [Effect.txCommit])⟩) ∧
    (∀ b faults, (bindEventPersons eventID b faults s).status ≠ 204 →
      (bindEventPersons eventID b faults s).store = s) ∧
    (∀ pre d post,
      personList.map (fun p => p.person_id) = pre ++ d :: post →
      pre.Nodup → (∀ i ∈ pre, (eventID, i) ∉ s.eventPersonTagging) →
      ((eventID, d) ∈ s.eventPersonTagging ∨ d ∈ pre) →
      bindEventPersons eventID (some personList) [] s =
        ⟨409, Body.text "duplicated: bind", s,
          Effect.txBegin :: (pre.map (fun i => Effect.insertTag TagTable.eventPerson eventID i)
            ++ [Effect.insertTag TagTable.eventPerson eventID d])⟩) ∧
    (imageList ≠ [] →
      (imageList.map (fun im => im.image_id)).Nodup →
      (∀ i ∈ imageList.map (fun im => im.image_id), (eventID, i) ∉ s.eventImageTagging) →
      bindEventImages eventID (some imageList) [] s =
        ⟨204, Body.empty,
          { s with eventImageTagging := s.eventImageTagging
              ++ (imageList.map (fun im => im.image_id)).map (fun i => (eventID, i)) },
          Effect.txBegin :: ((imageList.map (fun im => im.image_id)).map
              (fun i => Effect.insertTag TagTable.eventImage eventID i)
            ++ [Effect.txCommit])⟩) ∧
    (∀ b faults, (bindEventImages eventID b faults s).status ≠ 204 →
      (bindEventImages eventID b faults s).store = s) ∧
    (∀ pre d post,
      imageList.map (fun im => im.image_id) = pre ++ d :: post →
      pre.Nodup → (∀ i ∈ pre, (eventID, i) ∉ s.eventImageTagging) →
      ((eventID, d) ∈ s.eventImageTagging ∨ d ∈ pre) →
      bindEventImages eventID (some imageList) [] s =
        ⟨409, Body.text "duplicated: bind", s,
          Effect.txBegin :: (pre.map (fun i => Effect.insertTag TagTable.eventImage eventID i)
            ++ [Effect.insertTag TagTable.eventImage eventID d])⟩) := by
  refine ⟨?_, ?_, ?_, ?_, ?_, ?_⟩
  · intro _ hnd hfresh
    simp only [bindEventPersons, Option.getD_some, stepFault]
    rw [insertTagLoop_ok TagTable.eventPerson eventID _ _ hnd hfresh]
    simp [stepFault]
  · intro b faults h
    exact (bindEventPersons_rollback eventID b faults s).resolve_left h
  · intro pre d post hsplit hnd hfresh hdup
    simp only [bindEventPersons, Option.getD_some, stepFault]
    rw [hsplit, insertTagLoop_dup TagTable.eventPerson eventID pre d post
      s.eventPersonTagging hnd hfresh hdup]
    simp
  · intro _ hnd hfresh
    simp only [bindEventImages, Option.getD_some, stepFault]
    rw [insertTagLoop_ok TagTable.eventImage eventID _ _ hnd hfresh]
    simp [stepFault]
  · intro b faults h
    exact (bindEventImages_rollback eventID b faults s).resolve_left h
  · intro pre d post hsplit hnd hfresh hdup
    simp only [bindEventImages, Option.getD_some, stepFault]
    rw [hsplit, insertTagLoop_dup TagTable.eventImage eventID pre d post
      s.eventImageTagging hnd hfresh hdup]
    simp

theorem claim_C1_witness :
    ([Person.mk 1 "" "", Person.mk 3 "" ""] ≠ ([] : List Person)) ∧
    (bindEventPersons 5 (some [Person.mk 1 "" "", Person.mk 3 "" ""]) []
        (Store.mk [] [] [] [(5, 2)] [] 1 1 1) =
      ⟨204, Body.empty, Store.mk [] [] [] [(5, 2), (5, 1), (5, 3)] [] 1 1 1,
       [Effect.txBegin, Effect.insertTag TagTable.eventPerson 5 1,
        Effect.insertTag TagTable.eventPerson 5 3, Effect.txCommit]⟩) ∧
    ((bindEventPersons 5 (some [Person.mk 2 "" ""]) [] (Store.mk [] [] [] [(5, 2)] [] 1 1 1)).store
      = Store.mk [] [] [] [(5, 2)] [] 1 1 1) ∧
    (bindEventPersons 5 (some [Person.mk 2 "" ""]) [] (Store.mk [] [] [] [(5, 2)] [] 1 1 1) =
      ⟨409, Body.text "duplicated: bind", Store.mk [] [] [] [(5, 2)] [] 1 1 1,
       [Effect.txBegin, Effect.insertTag TagTable.eventPerson 5 2]⟩) ∧
    (bindEventImages 5 (some [Image.mk 4 "" ""]) [] (Store.mk [] [] [] [] [(5, 4)] 1 1 1) =
      ⟨409, Body.text "duplicated: bind", Store.mk [] [] [] [] [(5, 4)] 1 1 1,
       [Effect.txBegin, Effect.insertTag TagTable.eventImage 5 4]⟩) ∧
    ((bindEventImages 5 (some [Image.mk 4 "" ""]) [some DbErr.other]
        (Store.mk [] [] [] [] [] 1 1 1)).store = Store.mk [] [] [] [] [] 1 1 1) := by
  refine ⟨by decide, ?_, ?_, ?_, ?_, ?_⟩
  · exact (claim_C1 5 [Person.mk 1 "" "", Person.mk 3 "" ""] []
      (Store.mk [] [] [] [(5, 2)] [] 1 1 1)).1 (by decide) (by decide) (by decide)
  · exact (claim_C1 5 [Person.mk 2 "" ""] []
      (Store.mk [] [] [] [(5, 2)] [] 1 1 1)).2.1 (some [Person.mk 2 "" ""]) [] (by decide)
  · exact (claim_C1 5 [Person.mk 2 "" ""] []
      (Store.mk [] [] [] [(5, 2)] [] 1 1 1)).2.2.1 [] 2 [] (by decide) (by decide)
      (by decide) (by decide)
  · exact (claim_C1 5 [] [Image.mk 4 "" ""]
      (Store.mk [] [] [] [] [(5, 4)] 1 1 1)).2.2.2.2.2 [] 4 [] (by decide) (by decide)
      (by decide) (by decide)
  · exact (claim_C1 5 [] [Image.mk 4 "" ""]
      (Store.mk [] [] [] [] [] 1 1 1)).2.2.2.2.1 (some [Image.mk 4 "" ""])
      [some DbErr.other] (by decide)

/-- C4: each entity create (event, person, image) runs in one transaction —
begin, insert, LAST_INSERT_ID read-back on the same transaction, commit —
returning 201 with the store-generated id and appending exactly the new row
(fault-free run; the upload additionally creates and fills the file between
the read-back and the commit); a duplicate-entry report at the insert yields
409, any other store error at the insert, the read-back or the commit yields
500, and every non-201 outcome leaves the committed store unchanged. -/
theorem claim_C4 (ev : NewEvent) (p : Person) (file : FormFile) (s : Store)
    (rest : Faults) (e : DbErr) (hsize : file.size ≤ 1000000) (hopen : file.openOk = true) :
    (postEvent (some ev) [] s =
      ⟨201, Body.jsonId "EventID" s.nextEventId,
        { s with
          events := s.events ++ [Event.mk s.nextEventId 1 ev.title ev.description ev.event_date],
          nextEventId := s.nextEventId + 1 },
        [Effect.txBegin, Effect.insertEvent ev.title ev.description ev.event_date,
         Effect.lastIdQuery, Effect.txCommit]⟩) ∧
    (postPerson (some p) [] s =
      ⟨201, Body.jsonId "PersonID" s.nextPersonId,
        { s with
          persons := s.persons ++ [Person.mk s.nextPersonId p.first_name p.last_name],
          nextPersonId := s.nextPersonId + 1 },
        [Effect.txBegin, Effect.insertPerson p.first_name p.last_name,
         Effect.lastIdQuery, Effect.txCommit]⟩) ∧
    (uploadImage (some file) [] s =
      ⟨201, Body.jsonId "ImageID" s.nextImageId,
        { s with
          images := s.images ++ [Image.mk s.nextImageId file.filename file.contentType],
          nextImageId := s.nextImageId + 1 },
        [Effect.fileOpen, Effect.txBegin, Effect.insertImage file.filename file.contentType,
         Effect.lastIdQuery,
         Effect.fileCreate (imagesPath ++ "/" ++ toString s.nextImageId ++ ".png"),
         Effect.fileCopy, Effect.txCommit]⟩) ∧
    (postEvent (some ev) (none :: some DbErr.duplicate :: rest) s).status = 409 ∧
    (postPerson (some p) (none :: some DbErr.duplicate :: rest) s).status = 409 ∧
    (uploadImage (some file) (none :: some DbErr.duplicate :: rest) s).status = 409 ∧
    (postEvent (some ev) (none :: some DbErr.other :: rest) s).status = 500 ∧
    (postPerson (some p) (none :: some DbErr.other :: rest) s).status = 500 ∧
    (uploadImage (some file) (none :: some DbErr.other :: rest) s).status = 500 ∧
    (postEvent (some ev) (none :: none :: some e :: rest) s).status = 500 ∧
    (postEvent (some ev) (none :: none :: none :: some e :: rest) s).status = 500 ∧
    (postPerson (some p) (none :: none :: some e :: rest) s).status = 500 ∧
    (postPerson (some p) (none :: none :: none :: some e :: rest) s).status = 500 ∧
    (∀ b faults, (postEvent b faults s).status ≠ 201 → (postEvent b faults s).store = s) ∧
    (∀ b faults, (postPerson b faults s).status ≠ 201 → (postPerson b faults s).store = s) ∧
    (∀ fo faults, (uploadImage fo faults s).status ≠ 201 → (uploadImage fo faults s).store = s) := by
  have hn : ¬ file.size > 1000000 := by omega
  refine ⟨rfl, rfl, ?_, rfl, rfl, ?_, rfl, rfl, ?_, rfl, rfl, rfl, rfl, ?_, ?_, ?_⟩
  · simp only [uploadImage]
    rw [if_neg hn]
    simp [stepFault, hopen]
  · simp only [uploadImage]
    rw [if_neg hn]
    simp [stepFault]
  · simp only [uploadImage]
    rw [if_neg hn]
    simp [stepFault]
  · intro b faults h
    exact (postEvent_rollback b faults s).resolve_left h
  · intro b faults h
    exact (postPerson_rollback b faults s).resolve_left h
  · intro fo faults h
    exact (uploadImage_rollback fo faults s).resolve_left h

theorem claim_C4_witness :
    ((FormFile.mk "a.png" "image/png" 5 true).size ≤ 1000000) ∧
    ((FormFile.mk "a.png" "image/png" 5 true).openOk = true) ∧
    (postEvent (some (NewEvent.mk "t" "d" 7)) [] (Store.mk [] [] [] [] [] 1 1 1) =
      ⟨201, Body.jsonId "EventID" 1,
        Store.mk [Event.mk 1 1 "t" "d" 7] [] [] [] [] 2 1 1,
        [Effect.txBegin, Effect.insertEvent "t" "d" 7, Effect.lastIdQuery, Effect.txCommit]⟩) ∧
    (uploadImage (some (FormFile.mk "a.png" "image/png" 5 true)) []
        (Store.mk [] [] [] [] [] 1 1 1)).status = 201 ∧
    (postPerson (some (Person.mk 0 "Ada" "Lovelace"))
        (none :: some DbErr.duplicate :: []) (Store.mk [] [] [] [] [] 1 1 1)).status = 409 ∧
    ((postEvent (some (NewEvent.mk "t" "d" 7)) [some DbErr.other]
        (Store.mk [] [] [] [] [] 1 1 1)).store = Store.mk [] [] [] [] [] 1 1 1) := by
  have h := claim_C4 (NewEvent.mk "t" "d" 7) (Person.mk 0 "Ada" "Lovelace")
    (FormFile.mk "a.png" "image/png" 5 true) (Store.mk [] [] [] [] [] 1 1 1)
    [] DbErr.other (by decide) (by decide)
  refine ⟨by decide, by decide, h.1, ?_, h.2.2.2.2.1, ?_⟩
  · rw [h.2.2.1]
  · exact h.2.2.2.2.2.2.2.2.2.2.2.2.2.1 (some (NewEvent.mk "t" "d" 7))
      [some DbErr.other] (by decide)
